import Mathlib

/-!
Verification development for the Person/Address/Owner/Pet CRUD API
(`src/main.py`, `src/models/owner.py`, `src/models/pet.py`).

Modelling conventions:
* UUIDs are modelled as `Nat`; UTC timestamps as `Nat`; Python floats,
  used only under exact equality, as `Rat`; dates as their `YYYY-MM-DD`
  string form.
* A Python `dict` (which preserves insertion order, keeps the position of
  an updated key, and removes a key on `del`) is an association list
  `List (Nat × α)` with operations `lookupStore`, `containsKey`,
  `setStore`, `eraseStore`, `storeValues` mirroring exactly those uses.
* A Pydantic `Update` model field `f : Optional[T] = None` that the
  handlers read back with `model_dump(exclude_unset=True)` is modelled as
  `Option (Option T)`: the outer `none` is "field not supplied" (absent
  from the dump), `some v` is "field explicitly supplied with value `v`",
  so `some none` is "explicitly supplied as null".
* Re-validating a merged dict with a `Read` model (`PetRead(**stored)`
  etc.) fails when a required (non-Optional) field received null; the
  merge functions return `Option` with `none` for that Pydantic
  `ValidationError`, which inside a handler is an unhandled internal
  fault, not an HTTP 400.
-/

/-! ## In-memory store: Python dict as ordered association list -/

/-- `i in d` for a Python dict keyed by UUID. -/
def containsKey {α : Type} (s : List (Nat × α)) (i : Nat) : Bool :=
  s.any (fun p => p.1 == i)

/-- `d[i]` when present: first (only) binding of key `i`. -/
def lookupStore {α : Type} (s : List (Nat × α)) (i : Nat) : Option α :=
  (s.find? (fun p => p.1 == i)).map Prod.snd

/-- `d[i] = v`: overwrite in place when the key exists (keeping its
position, as a Python dict does), otherwise append at the end. -/
def setStore {α : Type} (s : List (Nat × α)) (i : Nat) (v : α) : List (Nat × α) :=
  if containsKey s i then
    s.map (fun p => if p.1 == i then (i, v) else p)
  else
    s ++ [(i, v)]

/-- `del d[i]`: remove every binding of key `i`. -/
def eraseStore {α : Type} (s : List (Nat × α)) (i : Nat) : List (Nat × α) :=
  s.filter (fun p => p.1 != i)

/-- `list(d.values())` in insertion order. -/
def storeValues {α : Type} (s : List (Nat × α)) : List α :=
  s.map Prod.snd

/-! ## Partial-update field merge

`stored.update(update.model_dump(exclude_unset=True))` followed by
re-validation with the Read model acts on each field as below. -/

/-- Merge one Update field into a stored field whose Read type is
`Optional[T]`: unset leaves the stored value, an explicitly supplied
value (null included) replaces it; re-validation always accepts. -/
def applyOpt {α : Type} (field : Option (Option α)) (old : Option α) : Option α :=
  match field with
  | none => old
  | some v => v

/-- Merge one Update field into a stored field whose Read type is
required (non-Optional) `T`: unset leaves the stored value, an explicit
value replaces it, and an explicit null makes re-validation fail
(`none`). -/
def applyReq {α : Type} (field : Option (Option α)) (old : α) : Option α :=
  match field with
  | none => some old
  | some (some v) => some v
  | some none => none

/-! ## Pet schemas (`src/models/pet.py`) -/

/-- `PetCreate` (`src/models/pet.py`): client payload; `name` and
`species` required, `age` and `weight` optional. -/
structure PetCreate where
  name : String
  species : String
  age : Option Int
  weight : Option Rat
deriving DecidableEq, Repr

/-- `PetRead` (`src/models/pet.py`): stored representation with
server-generated `id`, `created_at`, `updated_at`. -/
structure PetRead where
  id : Nat
  name : String
  species : String
  age : Option Int
  weight : Option Rat
  created_at : Nat
  updated_at : Nat
deriving DecidableEq, Repr

/-- `PetUpdate` (`src/models/pet.py`): every field optional; outer
`none` is "not supplied", `some none` is "explicitly null". -/
structure PetUpdate where
  name : Option (Option String)
  species : Option (Option String)
  age : Option (Option Int)
  weight : Option (Option Rat)
deriving DecidableEq, Repr

/-- `stored.update(update.model_dump(exclude_unset=True))` then
`PetRead(**stored)`: `name`/`species` are required in `PetRead`, so an
explicit null there fails re-validation; `id`/`created_at`/`updated_at`
are absent from `PetUpdate` and carry over. -/
def mergePet (stored : PetRead) (u : PetUpdate) : Option PetRead :=
  match applyReq u.name stored.name, applyReq u.species stored.species with
  | some n, some s =>
      some { id := stored.id, name := n, species := s,
             age := applyOpt u.age stored.age,
             weight := applyOpt u.weight stored.weight,
             created_at := stored.created_at,
             updated_at := stored.updated_at }
  | _, _ => none

/-! ## Address schemas

Modelled from the spec: `src/models/address.py` is imported by
`src/main.py` and `src/models/owner.py` but is not under `src/`. Per the
spec's data-model table an Address has scalar fields street, city,
state, postal_code, country and a server- or client-supplied UUID id;
the embedded-address examples show `state` as nullable. `AddressRead`
has no timestamps. -/
structure AddressBase where
  id : Nat
  street : String
  city : String
  state : Option String
  postal_code : String
  country : String
deriving DecidableEq, Repr

/-- Modelled from the spec: `AddressCreate` accepts a caller-supplied
id (`src/main.py` reads `address.id`); same fields as `AddressBase`. -/
abbrev AddressCreate : Type := AddressBase

/-- Modelled from the spec: `AddressRead` is the stored representation;
`AddressRead(**address.model_dump())` in `create_address` copies the
create payload's fields unchanged. -/
abbrev AddressRead : Type := AddressBase

/-! ## Owner schemas (`src/models/owner.py`) -/

/-- `PetBase` (`src/models/pet.py`): embedded pet value inside an
Owner; no id, no timestamps. -/
structure PetBase where
  name : String
  species : String
  age : Option Int
  weight : Option Rat
deriving DecidableEq, Repr

/-- `OwnerCreate` = `OwnerBase` (`src/models/owner.py`): `first_name`,
`last_name`, `email` required; `phone`, `birth_date` optional; embedded
`pet` and `addresses` lists. Dates are modelled by their `YYYY-MM-DD`
string form. -/
structure OwnerCreate where
  first_name : String
  last_name : String
  email : String
  phone : Option String
  birth_date : Option String
  pet : List PetBase
  addresses : List AddressBase
deriving DecidableEq, Repr

/-- `OwnerRead` (`src/models/owner.py`): adds server-generated `id`,
`created_at`, `updated_at` to `OwnerBase`. -/
structure OwnerRead where
  id : Nat
  first_name : String
  last_name : String
  email : String
  phone : Option String
  birth_date : Option String
  pet : List PetBase
  addresses : List AddressBase
  created_at : Nat
  updated_at : Nat
deriving DecidableEq, Repr

/-- `OwnerUpdate` (`src/models/owner.py`): every field optional; outer
`none` is "not supplied", `some none` is "explicitly null". -/
structure OwnerUpdate where
  first_name : Option (Option String)
  last_name : Option (Option String)
  email : Option (Option String)
  phone : Option (Option String)
  birth_date : Option (Option String)
  pet : Option (Option (List PetBase))
  addresses : Option (Option (List AddressBase))
deriving DecidableEq, Repr

/-- Whether an email string parses as `EmailStr`; abstracted to the
presence of an `@`, the detail Pydantic's validator always requires. -/
def isValidEmail (s : String) : Bool := s.contains '@'

/-- Pydantic validation of an `OwnerUpdate` body: every field is
Optional so null is accepted everywhere; the only typed check the
shallow embedding retains is `EmailStr` syntax on a supplied non-null
email. -/
def ownerUpdateValid (u : OwnerUpdate) : Bool :=
  match u.email with
  | some (some e) => isValidEmail e
  | _ => true

/-- `stored.update(update.model_dump(exclude_unset=True))` then
`OwnerRead(**stored)`: `first_name`/`last_name`/`email` and the `pet`
and `addresses` lists are required (non-Optional) in `OwnerRead`, so an
explicit null on any of them fails re-validation; `id`, `created_at`,
`updated_at` are absent from `OwnerUpdate` and carry over. -/
def mergeOwner (stored : OwnerRead) (u : OwnerUpdate) : Option OwnerRead :=
  match applyReq u.first_name stored.first_name,
        applyReq u.last_name stored.last_name,
        applyReq u.email stored.email,
        applyReq u.pet stored.pet,
        applyReq u.addresses stored.addresses with
  | some fn, some ln, some em, some pe, some ad =>
      some { id := stored.id, first_name := fn, last_name := ln, email := em,
             phone := applyOpt u.phone stored.phone,
             birth_date := applyOpt u.birth_date stored.birth_date,
             pet := pe,
             addresses := ad,
             created_at := stored.created_at,
             updated_at := stored.updated_at }
  | _, _, _, _, _ => none

/-! ## Person schema

Modelled from the spec: `src/models/person.py` is not under `src/`. Per
the spec's data-model table and the fields `list_persons` in
`src/main.py` reads, a Person has uni, first_name, last_name, email,
phone, birth_date and embedded addresses, with a server-generated
UUID. -/
structure PersonRead where
  id : Nat
  uni : String
  first_name : String
  last_name : String
  email : String
  phone : Option String
  birth_date : Option String
  addresses : List AddressBase
deriving DecidableEq, Repr

/-! ## Handler result types

`HTTPException(404)` on a missing id, `HTTPException(400)` on an
Address id collision, and an exception escaping the handler (Pydantic
`ValidationError` from re-validating a merged record) are distinct
outcomes; every handler returns its outcome together with the store
left behind, the unchanged store when it raised before mutating. -/

/-- Outcome of a PATCH handler. -/
inductive UpdateResult (α : Type) where
  | notFound
  | internalFault
  | ok (r : α)
deriving DecidableEq, Repr

/-- Outcome of a DELETE handler: 404 or 204-no-body. -/
inductive DeleteResult where
  | notFound
  | noContent
deriving DecidableEq, Repr

/-- Outcome of `create_address`: 400 id collision or 201 with body. -/
inductive CreateResult (α : Type) where
  | conflict
  | created (r : α)
deriving DecidableEq, Repr

/-- Python `str` applied to an `Optional[date]`: `str(None)` is the
string `"None"`, a date prints as `YYYY-MM-DD`. -/
def pyStr (d : Option String) : String :=
  match d with
  | none => "None"
  | some s => s

/-- One step of a list handler's filter chain:
`if x is not None: results = [r for r in results if q(r, x)]`. -/
def filterOpt {α β : Type} (results : List α) (f : Option β) (q : α → β → Bool) : List α :=
  match f with
  | none => results
  | some v => results.filter (fun r => q r v)

/-! ## Address handlers (`src/main.py`) -/

/-- `create_address` (`src/main.py` lines 64-69): raise 400 when the
caller-supplied id is already a key, otherwise store
`AddressRead(**address.model_dump())` under it and return it. -/
def create_address (store : List (Nat × AddressRead)) (address : AddressCreate) :
    CreateResult AddressRead × List (Nat × AddressRead) :=
  if containsKey store address.id then
    (.conflict, store)
  else
    (.created address, setStore store address.id address)

/-! ## Person handlers (`src/main.py`) -/

/-- `list_persons` (`src/main.py` lines 119-151): start from all stored
persons, then narrow by each supplied filter in the code's order; `city`
and `country` are existential over the embedded addresses. -/
def list_persons (store : List (Nat × PersonRead))
    (uni first_name last_name email phone birth_date city country : Option String) :
    List PersonRead :=
  let r0 := storeValues store
  let r1 := filterOpt r0 uni (fun p v => p.uni == v)
  let r2 := filterOpt r1 first_name (fun p v => p.first_name == v)
  let r3 := filterOpt r2 last_name (fun p v => p.last_name == v)
  let r4 := filterOpt r3 email (fun p v => p.email == v)
  let r5 := filterOpt r4 phone (fun p v => p.phone == some v)
  let r6 := filterOpt r5 birth_date (fun p v => pyStr p.birth_date == v)
  let r7 := filterOpt r6 city (fun p v => p.addresses.any (fun a => a.city == v))
  filterOpt r7 country (fun p v => p.addresses.any (fun a => a.country == v))

/-- The query parameters `list_persons` declares, in order
(`src/main.py` lines 120-128). -/
def list_persons_filters : List String :=
  ["uni", "first_name", "last_name", "email", "phone", "birth_date", "city", "country"]

/-! ## Owner handlers (`src/main.py`) -/

/-- `OwnerRead(**owner.model_dump())` with server-generated id and
timestamps (each `default_factory` call passed in explicitly). -/
def ownerReadOfCreate (o : OwnerCreate) (freshId createdAt updatedAt : Nat) : OwnerRead :=
  { id := freshId, first_name := o.first_name, last_name := o.last_name,
    email := o.email, phone := o.phone, birth_date := o.birth_date,
    pet := o.pet, addresses := o.addresses,
    created_at := createdAt, updated_at := updatedAt }

/-- `create_owner` (`src/main.py` lines 171-176): build an `OwnerRead`,
store it under its own id, return it. -/
def create_owner (store : List (Nat × OwnerRead)) (o : OwnerCreate)
    (freshId createdAt updatedAt : Nat) : OwnerRead × List (Nat × OwnerRead) :=
  let r := ownerReadOfCreate o freshId createdAt updatedAt
  (r, setStore store r.id r)

/-- `list_owners` (`src/main.py` lines 178-207): same shape as
`list_persons` but with no `uni` parameter. -/
def list_owners (store : List (Nat × OwnerRead))
    (first_name last_name email phone birth_date city country : Option String) :
    List OwnerRead :=
  let r0 := storeValues store
  let r1 := filterOpt r0 first_name (fun o v => o.first_name == v)
  let r2 := filterOpt r1 last_name (fun o v => o.last_name == v)
  let r3 := filterOpt r2 email (fun o v => o.email == v)
  let r4 := filterOpt r3 phone (fun o v => o.phone == some v)
  let r5 := filterOpt r4 birth_date (fun o v => pyStr o.birth_date == v)
  let r6 := filterOpt r5 city (fun o v => o.addresses.any (fun a => a.city == v))
  filterOpt r6 country (fun o v => o.addresses.any (fun a => a.country == v))

/-- The query parameters `list_owners` declares, in order
(`src/main.py` lines 180-186). -/
def list_owners_filters : List String :=
  ["first_name", "last_name", "email", "phone", "birth_date", "city", "country"]

/-- `get_owner` (`src/main.py` lines 209-213): 404 when the id is not a
key, else the stored record. -/
def get_owner (store : List (Nat × OwnerRead)) (owner_id : Nat) : Option OwnerRead :=
  lookupStore store owner_id

/-- `update_owner` (`src/main.py` lines 215-222): 404 when the id is
missing; else merge the explicitly-set payload fields over the stored
dict and re-validate as `OwnerRead` — a failed re-validation escapes
the handler before the store assignment. -/
def update_owner (store : List (Nat × OwnerRead)) (owner_id : Nat) (u : OwnerUpdate) :
    UpdateResult OwnerRead × List (Nat × OwnerRead) :=
  match lookupStore store owner_id with
  | none => (.notFound, store)
  | some stored =>
    match mergeOwner stored u with
    | none => (.internalFault, store)
    | some merged => (.ok merged, setStore store owner_id merged)

/-- `delete_owner` (`src/main.py` lines 224-229): 404 when the id is
missing (store untouched), else remove the key and return no body. -/
def delete_owner (store : List (Nat × OwnerRead)) (owner_id : Nat) :
    DeleteResult × List (Nat × OwnerRead) :=
  if containsKey store owner_id then
    (.noContent, eraseStore store owner_id)
  else
    (.notFound, store)

/-! ## Pet handlers (`src/main.py`) -/

/-- `PetRead(**pet.model_dump())` with server-generated id and
timestamps (each `default_factory` call passed in explicitly). -/
def petReadOfCreate (p : PetCreate) (freshId createdAt updatedAt : Nat) : PetRead :=
  { id := freshId, name := p.name, species := p.species,
    age := p.age, weight := p.weight,
    created_at := createdAt, updated_at := updatedAt }

/-- `create_pet` (`src/main.py` lines 235-240): build a `PetRead`,
store it under its own id, return it. -/
def create_pet (store : List (Nat × PetRead)) (p : PetCreate)
    (freshId createdAt updatedAt : Nat) : PetRead × List (Nat × PetRead) :=
  let r := petReadOfCreate p freshId createdAt updatedAt
  (r, setStore store r.id r)

/-- `list_pets` (`src/main.py` lines 241-259): start from all stored
pets, then narrow by each supplied filter in the code's order. -/
def list_pets (store : List (Nat × PetRead))
    (name species : Option String) (age : Option Int) (weight : Option Rat) :
    List PetRead :=
  let r0 := storeValues store
  let r1 := filterOpt r0 name (fun p v => p.name == v)
  let r2 := filterOpt r1 species (fun p v => p.species == v)
  let r3 := filterOpt r2 age (fun p v => p.age == some v)
  filterOpt r3 weight (fun p v => p.weight == some v)

/-- `get_pet` (`src/main.py` lines 260-264): 404 when the id is not a
key, else the stored record. -/
def get_pet (store : List (Nat × PetRead)) (pet_id : Nat) : Option PetRead :=
  lookupStore store pet_id

/-- `update_pet` (`src/main.py` lines 265-272): 404 when the id is
missing; else merge the explicitly-set payload fields over the stored
dict and re-validate as `PetRead` — a failed re-validation escapes the
handler before the store assignment. -/
def update_pet (store : List (Nat × PetRead)) (pet_id : Nat) (u : PetUpdate) :
    UpdateResult PetRead × List (Nat × PetRead) :=
  match lookupStore store pet_id with
  | none => (.notFound, store)
  | some stored =>
    match mergePet stored u with
    | none => (.internalFault, store)
    | some merged => (.ok merged, setStore store pet_id merged)

/-- `delete_pet` (`src/main.py` lines 273-278): 404 when the id is
missing (store untouched), else remove the key and return no body. -/
def delete_pet (store : List (Nat × PetRead)) (pet_id : Nat) :
    DeleteResult × List (Nat × PetRead) :=
  if containsKey store pet_id then
    (.noContent, eraseStore store pet_id)
  else
    (.notFound, store)

/-! ## Concrete fixtures (small stores and payloads used to instantiate
the theorems on closed inputs) -/

/-- A stored pet, the spec's example record. -/
def rexRead : PetRead :=
  { id := 1, name := "Rex", species := "Dog", age := some 5,
    weight := some 30, created_at := 10, updated_at := 10 }

/-- A second stored pet of another species. -/
def mittensRead : PetRead :=
  { id := 2, name := "Mittens", species := "Cat", age := some 3,
    weight := some 4, created_at := 11, updated_at := 11 }

/-- A pet store holding both pets. -/
def demoPetStore : List (Nat × PetRead) := [(1, rexRead), (2, mittensRead)]

/-- The spec's example PATCH body: only `age` supplied. -/
def agePatch : PetUpdate :=
  { name := none, species := none, age := some (some 6), weight := none }

/-- `rexRead` after `agePatch`: age changed, all else as before. -/
def rexAfter : PetRead :=
  { id := 1, name := "Rex", species := "Dog", age := some 6,
    weight := some 30, created_at := 10, updated_at := 10 }

/-- An embedded address in London. -/
def adaAddress : AddressBase :=
  { id := 7, street := "123 Main St", city := "London", state := none,
    postal_code := "SW1A 1AA", country := "UK" }

/-- A stored owner with one London address. -/
def adaRead : OwnerRead :=
  { id := 3, first_name := "Ada", last_name := "Lovelace",
    email := "ada@example.com", phone := none, birth_date := some "1815-12-10",
    pet := [], addresses := [adaAddress], created_at := 20, updated_at := 20 }

/-- A stored owner with no addresses. -/
def graceRead : OwnerRead :=
  { id := 4, first_name := "Grace", last_name := "Hopper",
    email := "grace@example.com", phone := none, birth_date := none,
    pet := [], addresses := [], created_at := 21, updated_at := 21 }

/-- An owner store holding both owners. -/
def demoOwnerStore : List (Nat × OwnerRead) := [(3, adaRead), (4, graceRead)]

/-- An owner PATCH body supplying only `phone`. -/
def phonePatch : OwnerUpdate :=
  { first_name := none, last_name := none, email := none,
    phone := some (some "+1-415-555-0199"), birth_date := none,
    pet := none, addresses := none }

/-- `adaRead` after `phonePatch`: phone changed, all else as before. -/
def adaAfterPhone : OwnerRead :=
  { adaRead with phone := some "+1-415-555-0199" }

/-- An owner PATCH body explicitly setting the required `email` to
null. -/
def emailNullPatch : OwnerUpdate :=
  { first_name := none, last_name := none, email := some none,
    phone := none, birth_date := none, pet := none, addresses := none }

/-- An address store holding the one address. -/
def demoAddressStore : List (Nat × AddressRead) := [(7, adaAddress)]

/-- A fresh address whose id is not yet in `demoAddressStore`. -/
def newAddress : AddressBase :=
  { id := 8, street := "10 Downing St", city := "London", state := none,
    postal_code := "SW1A 2AA", country := "UK" }

/-- The identity invariant of the four stores: each handler keys a
record by its own `id` field (`owners[owner_read.id] = owner_read`
etc.), so the record stored under key `k` always has id `k`. -/
def idsMatchKeys {α : Type} (f : α → Nat) (s : List (Nat × α)) : Prop :=
  ∀ p ∈ s, f p.2 = p.1

/-! ## Store lemmas -/

/-- A key absent from the store looks up to nothing. -/
theorem lookupStore_eq_none_of_not_containsKey {α : Type} (s : List (Nat × α)) (i : Nat)
    (h : containsKey s i = false) : lookupStore s i = none := by
  induction s with
  | nil => rfl
  | cons hd tl ih =>
    simp only [containsKey, List.any_cons, Bool.or_eq_false_iff] at h
    simp only [lookupStore, List.find?, h.1, Option.map]
    exact ih (by simpa [containsKey] using h.2)

/-- A key present in the store looks up to something. -/
theorem lookupStore_isSome_of_containsKey {α : Type} (s : List (Nat × α)) (i : Nat)
    (h : containsKey s i = true) : ∃ v, lookupStore s i = some v := by
  induction s with
  | nil => simp [containsKey] at h
  | cons hd tl ih =>
    by_cases hk : hd.1 == i
    · exact ⟨hd.2, by simp [lookupStore, List.find?, hk]⟩
    · simp only [containsKey, List.any_cons, hk, Bool.false_or] at h
      obtain ⟨v, hv⟩ := ih h
      exact ⟨v, by simpa [lookupStore, List.find?, hk] using hv⟩

/-- Writing key `i` then reading key `i` yields the written value. -/
theorem lookupStore_setStore_self {α : Type} (s : List (Nat × α)) (i : Nat) (v : α) :
    lookupStore (setStore s i v) i = some v := by
  unfold setStore
  by_cases h : containsKey s i
  · simp only [h, if_true]
    induction s with
    | nil => simp [containsKey] at h
    | cons hd tl ih =>
      by_cases hk : hd.1 == i
      · simp [lookupStore, List.find?, hk]
      · simp only [containsKey, List.any_cons, hk, Bool.false_or] at h
        simpa [lookupStore, List.find?, hk] using ih h
  · simp only [h, if_false]
    rw [Bool.not_eq_true] at h
    induction s with
    | nil => simp [lookupStore, List.find?]
    | cons hd tl ih =>
      simp only [containsKey, List.any_cons, Bool.or_eq_false_iff] at h
      simp only [List.cons_append, lookupStore, List.find?, h.1]
      exact ih (by simpa [containsKey] using h.2)

/-- Deleting key `i` then reading key `i` yields nothing. -/
theorem lookupStore_eraseStore_self {α : Type} (s : List (Nat × α)) (i : Nat) :
    lookupStore (eraseStore s i) i = none := by
  induction s with
  | nil => rfl
  | cons hd tl ih =>
    simp only [eraseStore] at ih ⊢
    rw [List.filter_cons]
    by_cases hk : (hd.1 != i) = true
    · have hne : (hd.1 == i) = false := by simpa [bne] using hk
      simp only [hk, if_true, lookupStore, List.find?, hne]
      exact ih
    · rw [if_neg hk]
      exact ih

/-- Membership in one filter-chain step. -/
theorem mem_filterOpt {α β : Type} (l : List α) (f : Option β) (q : α → β → Bool) (x : α) :
    x ∈ filterOpt l f q ↔ x ∈ l ∧ ∀ v, f = some v → q x v = true := by
  cases f <;> simp [filterOpt, List.mem_filter]

/-- What a successful required-field merge says about the new value. -/
theorem applyReq_eq_some {α : Type} (f : Option (Option α)) (old new : α)
    (h : applyReq f old = some new) :
    (f = none → new = old) ∧ (∀ v, f = some (some v) → new = v) := by
  cases f with
  | none =>
    exact ⟨fun _ => (Option.some.inj h).symm, fun v hv => by simp at hv⟩
  | some o =>
    cases o with
    | none => simp [applyReq] at h
    | some v =>
      refine ⟨fun hc => by simp at hc, fun w hw => ?_⟩
      have : v = w := by simpa using hw
      subst this
      exact (Option.some.inj h).symm

/-- What an optional-field merge says about the new value. -/
theorem applyOpt_cases {α : Type} (f : Option (Option α)) (old : Option α) :
    (f = none → applyOpt f old = old) ∧ (∀ v, f = some v → applyOpt f old = v) := by
  cases f <;> simp [applyOpt]

/-- Field-by-field reading of a successful `mergePet`. -/
theorem mergePet_ok (stored merged : PetRead) (u : PetUpdate)
    (h : mergePet stored u = some merged) :
    applyReq u.name stored.name = some merged.name
    ∧ applyReq u.species stored.species = some merged.species
    ∧ merged.age = applyOpt u.age stored.age
    ∧ merged.weight = applyOpt u.weight stored.weight
    ∧ merged.id = stored.id
    ∧ merged.created_at = stored.created_at
    ∧ merged.updated_at = stored.updated_at := by
  unfold mergePet at h
  split at h
  · rename_i n s hn hs
    obtain rfl : _ = merged := Option.some.inj h
    exact ⟨hn, hs, rfl, rfl, rfl, rfl, rfl⟩
  · exact absurd h (by simp)

/-- Field-by-field reading of a successful `mergeOwner`. -/
theorem mergeOwner_ok (stored merged : OwnerRead) (u : OwnerUpdate)
    (h : mergeOwner stored u = some merged) :
    applyReq u.first_name stored.first_name = some merged.first_name
    ∧ applyReq u.last_name stored.last_name = some merged.last_name
    ∧ applyReq u.email stored.email = some merged.email
    ∧ applyReq u.pet stored.pet = some merged.pet
    ∧ applyReq u.addresses stored.addresses = some merged.addresses
    ∧ merged.phone = applyOpt u.phone stored.phone
    ∧ merged.birth_date = applyOpt u.birth_date stored.birth_date
    ∧ merged.id = stored.id
    ∧ merged.created_at = stored.created_at
    ∧ merged.updated_at = stored.updated_at := by
  unfold mergeOwner at h
  split at h
  · rename_i fn ln em pe ad h1 h2 h3 h4 h5
    obtain rfl : _ = merged := Option.some.inj h
    exact ⟨h1, h2, h3, h4, h5, rfl, rfl, rfl, rfl, rfl⟩
  · exact absurd h (by simp)

/-- `update_pet` on a present id whose merge fails re-validation: the
exception escapes and the store is untouched. -/
theorem update_pet_present_fail (store : List (Nat × PetRead)) (i : Nat) (u : PetUpdate)
    (stored : PetRead) (hl : lookupStore store i = some stored)
    (hm : mergePet stored u = none) :
    update_pet store i u = (.internalFault, store) := by
  simp only [update_pet, hl, hm]

/-- `update_pet` on a present id whose merge passes re-validation:
the merge result is stored and returned. -/
theorem update_pet_present_ok (store : List (Nat × PetRead)) (i : Nat) (u : PetUpdate)
    (stored merged : PetRead) (hl : lookupStore store i = some stored)
    (hm : mergePet stored u = some merged) :
    update_pet store i u = (.ok merged, setStore store i merged) := by
  simp only [update_pet, hl, hm]

/-- `update_owner` on a present id whose merge fails re-validation:
the exception escapes and the store is untouched. -/
theorem update_owner_present_fail (store : List (Nat × OwnerRead)) (i : Nat) (u : OwnerUpdate)
    (stored : OwnerRead) (hl : lookupStore store i = some stored)
    (hm : mergeOwner stored u = none) :
    update_owner store i u = (.internalFault, store) := by
  simp only [update_owner, hl, hm]

/-- `update_owner` on a present id whose merge passes re-validation:
the merge result is stored and returned. -/
theorem update_owner_present_ok (store : List (Nat × OwnerRead)) (i : Nat) (u : OwnerUpdate)
    (stored merged : OwnerRead) (hl : lookupStore store i = some stored)
    (hm : mergeOwner stored u = some merged) :
    update_owner store i u = (.ok merged, setStore store i merged) := by
  simp only [update_owner, hl, hm]

/-- Membership in `list_pets`: all supplied filters hold conjunctively. -/
theorem mem_list_pets (store : List (Nat × PetRead))
    (name species : Option String) (age : Option Int) (weight : Option Rat) (p : PetRead) :
    p ∈ list_pets store name species age weight ↔
      p ∈ storeValues store
      ∧ (∀ v, name = some v → p.name = v)
      ∧ (∀ v, species = some v → p.species = v)
      ∧ (∀ v, age = some v → p.age = some v)
      ∧ (∀ v, weight = some v → p.weight = some v) := by
  unfold list_pets
  simp only [mem_filterOpt, beq_iff_eq, and_assoc]

/-- Membership in `list_owners`: all supplied filters hold
conjunctively, `city`/`country` existentially over embedded
addresses. -/
theorem mem_list_owners (store : List (Nat × OwnerRead))
    (first_name last_name email phone birth_date city country : Option String) (o : OwnerRead) :
    o ∈ list_owners store first_name last_name email phone birth_date city country ↔
      o ∈ storeValues store
      ∧ (∀ v, first_name = some v → o.first_name = v)
      ∧ (∀ v, last_name = some v → o.last_name = v)
      ∧ (∀ v, email = some v → o.email = v)
      ∧ (∀ v, phone = some v → o.phone = some v)
      ∧ (∀ v, birth_date = some v → pyStr o.birth_date = v)
      ∧ (∀ v, city = some v → ∃ a ∈ o.addresses, a.city = v)
      ∧ (∀ v, country = some v → ∃ a ∈ o.addresses, a.country = v) := by
  unfold list_owners
  simp only [mem_filterOpt, beq_iff_eq, List.any_eq_true, and_assoc]

/-- A PATCH on a present pet id that returns 200 stored exactly the
merge result. -/
theorem update_pet_ok (store : List (Nat × PetRead)) (i : Nat) (u : PetUpdate)
    (stored merged : PetRead) (hl : lookupStore store i = some stored)
    (hok : (update_pet store i u).1 = .ok merged) :
    mergePet stored u = some merged
    ∧ (update_pet store i u).2 = setStore store i merged := by
  cases hm : mergePet stored u with
  | none =>
    rw [update_pet_present_fail store i u stored hl hm] at hok
    exact absurd hok (by simp)
  | some m =>
    rw [update_pet_present_ok store i u stored m hl hm] at hok
    obtain rfl : m = merged := by simpa using hok
    exact ⟨rfl, by rw [update_pet_present_ok store i u stored m hl hm]⟩

/-- A PATCH on a present owner id that returns 200 stored exactly the
merge result. -/
theorem update_owner_ok (store : List (Nat × OwnerRead)) (i : Nat) (u : OwnerUpdate)
    (stored merged : OwnerRead) (hl : lookupStore store i = some stored)
    (hok : (update_owner store i u).1 = .ok merged) :
    mergeOwner stored u = some merged
    ∧ (update_owner store i u).2 = setStore store i merged := by
  cases hm : mergeOwner stored u with
  | none =>
    rw [update_owner_present_fail store i u stored hl hm] at hok
    exact absurd hok (by simp)
  | some m =>
    rw [update_owner_present_ok store i u stored m hl hm] at hok
    obtain rfl : m = merged := by simpa using hok
    exact ⟨rfl, by rw [update_owner_present_ok store i u stored m hl hm]⟩

/-- A record found under key `i` in an id-consistent store has id `i`. -/
theorem idsMatchKeys_lookup {α : Type} (f : α → Nat) (s : List (Nat × α)) (i : Nat) (v : α)
    (hs : idsMatchKeys f s) (hv : lookupStore s i = some v) : f v = i := by
  unfold lookupStore at hv
  cases hf : s.find? (fun p => p.1 == i) with
  | none => rw [hf] at hv; simp at hv
  | some q =>
    rw [hf] at hv
    have hv2 : q.2 = v := by simpa using hv
    have h1 : q.1 = i := by simpa using List.find?_some hf
    have h2 := hs q (List.mem_of_find?_eq_some hf)
    rw [← hv2, h2]
    exact h1

/-- Writing a record under its own id keeps the store id-consistent. -/
theorem idsMatchKeys_setStore {α : Type} (f : α → Nat) (s : List (Nat × α)) (i : Nat) (v : α)
    (hs : idsMatchKeys f s) (hv : f v = i) : idsMatchKeys f (setStore s i v) := by
  intro p hp
  unfold setStore at hp
  by_cases h : containsKey s i
  · rw [if_pos h] at hp
    obtain ⟨q, hq, hpq⟩ := List.mem_map.mp hp
    by_cases hk : (q.1 == i) = true
    · rw [if_pos hk] at hpq
      subst hpq
      exact hv
    · rw [if_neg hk] at hpq
      subst hpq
      exact hs q hq
  · rw [if_neg h] at hp
    rcases List.mem_append.mp hp with h1 | h2
    · exact hs p h1
    · obtain rfl : p = (i, v) := by simpa using h2
      exact hv

/-- Deleting a key keeps the store id-consistent. -/
theorem idsMatchKeys_eraseStore {α : Type} (f : α → Nat) (s : List (Nat × α)) (i : Nat)
    (hs : idsMatchKeys f s) : idsMatchKeys f (eraseStore s i) := by
  intro p hp
  exact hs p (List.mem_filter.mp hp).1

/-- A PATCH on a missing pet id is a 404 leaving the store unchanged. -/
theorem update_pet_absent (store : List (Nat × PetRead)) (i : Nat) (u : PetUpdate)
    (hl : lookupStore store i = none) :
    update_pet store i u = (.notFound, store) := by
  simp only [update_pet, hl]

/-- A PATCH on a missing owner id is a 404 leaving the store
unchanged. -/
theorem update_owner_absent (store : List (Nat × OwnerRead)) (i : Nat) (u : OwnerUpdate)
    (hl : lookupStore store i = none) :
    update_owner store i u = (.notFound, store) := by
  simp only [update_owner, hl]

/-- `create_pet` keeps the store id-consistent. -/
theorem create_pet_preserves_ids (store : List (Nat × PetRead)) (p : PetCreate)
    (freshId createdAt updatedAt : Nat) (hs : idsMatchKeys PetRead.id store) :
    idsMatchKeys PetRead.id (create_pet store p freshId createdAt updatedAt).2 :=
  idsMatchKeys_setStore PetRead.id store freshId (petReadOfCreate p freshId createdAt updatedAt)
    hs rfl

/-- `update_pet` keeps the store id-consistent. -/
theorem update_pet_preserves_ids (store : List (Nat × PetRead)) (i : Nat) (u : PetUpdate)
    (hs : idsMatchKeys PetRead.id store) :
    idsMatchKeys PetRead.id (update_pet store i u).2 := by
  cases hl : lookupStore store i with
  | none => rw [update_pet_absent store i u hl]; exact hs
  | some stored =>
    cases hm : mergePet stored u with
    | none => rw [update_pet_present_fail store i u stored hl hm]; exact hs
    | some merged =>
      rw [update_pet_present_ok store i u stored merged hl hm]
      have hid : merged.id = stored.id := (mergePet_ok stored merged u hm).2.2.2.2.1
      exact idsMatchKeys_setStore PetRead.id store i merged hs
        (hid.trans (idsMatchKeys_lookup PetRead.id store i stored hs hl))

/-- `delete_pet` keeps the store id-consistent. -/
theorem delete_pet_preserves_ids (store : List (Nat × PetRead)) (i : Nat)
    (hs : idsMatchKeys PetRead.id store) :
    idsMatchKeys PetRead.id (delete_pet store i).2 := by
  unfold delete_pet
  by_cases h : containsKey store i = true
  · rw [if_pos h]
    exact idsMatchKeys_eraseStore PetRead.id store i hs
  · rw [if_neg h]
    exact hs

/-- `create_owner` keeps the store id-consistent. -/
theorem create_owner_preserves_ids (store : List (Nat × OwnerRead)) (o : OwnerCreate)
    (freshId createdAt updatedAt : Nat) (hs : idsMatchKeys OwnerRead.id store) :
    idsMatchKeys OwnerRead.id (create_owner store o freshId createdAt updatedAt).2 :=
  idsMatchKeys_setStore OwnerRead.id store freshId
    (ownerReadOfCreate o freshId createdAt updatedAt) hs rfl

/-- `update_owner` keeps the store id-consistent. -/
theorem update_owner_preserves_ids (store : List (Nat × OwnerRead)) (i : Nat) (u : OwnerUpdate)
    (hs : idsMatchKeys OwnerRead.id store) :
    idsMatchKeys OwnerRead.id (update_owner store i u).2 := by
  cases hl : lookupStore store i with
  | none => rw [update_owner_absent store i u hl]; exact hs
  | some stored =>
    cases hm : mergeOwner stored u with
    | none => rw [update_owner_present_fail store i u stored hl hm]; exact hs
    | some merged =>
      rw [update_owner_present_ok store i u stored merged hl hm]
      have hid : merged.id = stored.id := (mergeOwner_ok stored merged u hm).2.2.2.2.2.2.2.1
      exact idsMatchKeys_setStore OwnerRead.id store i merged hs
        (hid.trans (idsMatchKeys_lookup OwnerRead.id store i stored hs hl))

/-- `delete_owner` keeps the store id-consistent. -/
theorem delete_owner_preserves_ids (store : List (Nat × OwnerRead)) (i : Nat)
    (hs : idsMatchKeys OwnerRead.id store) :
    idsMatchKeys OwnerRead.id (delete_owner store i).2 := by
  unfold delete_owner
  by_cases h : containsKey store i = true
  · rw [if_pos h]
    exact idsMatchKeys_eraseStore OwnerRead.id store i hs
  · rw [if_neg h]
    exact hs

/-! ## Claim theorems -/

/-- C1: Partial update law — after a 200 PATCH on a stored Pet or
Owner, the merged record is both returned and stored under the id;
every field the payload left unset keeps its prior value, and every
field the payload explicitly set (null included where the Read field is
optional) equals the payload's value. -/
theorem C1_partial_update_law :
    (∀ (store : List (Nat × PetRead)) (i : Nat) (u : PetUpdate) (stored merged : PetRead),
      lookupStore store i = some stored →
      (update_pet store i u).1 = .ok merged →
      lookupStore (update_pet store i u).2 i = some merged
      ∧ (u.name = none → merged.name = stored.name)
      ∧ (∀ v, u.name = some (some v) → merged.name = v)
      ∧ (u.species = none → merged.species = stored.species)
      ∧ (∀ v, u.species = some (some v) → merged.species = v)
      ∧ (u.age = none → merged.age = stored.age)
      ∧ (∀ v, u.age = some v → merged.age = v)
      ∧ (u.weight = none → merged.weight = stored.weight)
      ∧ (∀ v, u.weight = some v → merged.weight = v))
    ∧ (∀ (store : List (Nat × OwnerRead)) (i : Nat) (u : OwnerUpdate) (stored merged : OwnerRead),
      lookupStore store i = some stored →
      (update_owner store i u).1 = .ok merged →
      lookupStore (update_owner store i u).2 i = some merged
      ∧ (u.first_name = none → merged.first_name = stored.first_name)
      ∧ (∀ v, u.first_name = some (some v) → merged.first_name = v)
      ∧ (u.last_name = none → merged.last_name = stored.last_name)
      ∧ (∀ v, u.last_name = some (some v) → merged.last_name = v)
      ∧ (u.email = none → merged.email = stored.email)
      ∧ (∀ v, u.email = some (some v) → merged.email = v)
      ∧ (u.phone = none → merged.phone = stored.phone)
      ∧ (∀ v, u.phone = some v → merged.phone = v)
      ∧ (u.birth_date = none → merged.birth_date = stored.birth_date)
      ∧ (∀ v, u.birth_date = some v → merged.birth_date = v)
      ∧ (u.pet = none → merged.pet = stored.pet)
      ∧ (∀ v, u.pet = some (some v) → merged.pet = v)
      ∧ (u.addresses = none → merged.addresses = stored.addresses)
      ∧ (∀ v, u.addresses = some (some v) → merged.addresses = v)) := by
  constructor
  · intro store i u stored merged hl hok
    obtain ⟨hm, hs2⟩ := update_pet_ok store i u stored merged hl hok
    obtain ⟨hn, hs, hage, hw, _, _, _⟩ := mergePet_ok stored merged u hm
    refine ⟨?_, (applyReq_eq_some _ _ _ hn).1, (applyReq_eq_some _ _ _ hn).2,
      (applyReq_eq_some _ _ _ hs).1, (applyReq_eq_some _ _ _ hs).2,
      fun h0 => hage.trans ((applyOpt_cases u.age stored.age).1 h0),
      fun v hv => hage.trans ((applyOpt_cases u.age stored.age).2 v hv),
      fun h0 => hw.trans ((applyOpt_cases u.weight stored.weight).1 h0),
      fun v hv => hw.trans ((applyOpt_cases u.weight stored.weight).2 v hv)⟩
    rw [hs2]
    exact lookupStore_setStore_self store i merged
  · intro store i u stored merged hl hok
    obtain ⟨hm, hs2⟩ := update_owner_ok store i u stored merged hl hok
    obtain ⟨h1, h2, h3, h4, h5, hph, hbd, _, _, _⟩ := mergeOwner_ok stored merged u hm
    refine ⟨?_, (applyReq_eq_some _ _ _ h1).1, (applyReq_eq_some _ _ _ h1).2,
      (applyReq_eq_some _ _ _ h2).1, (applyReq_eq_some _ _ _ h2).2,
      (applyReq_eq_some _ _ _ h3).1, (applyReq_eq_some _ _ _ h3).2,
      fun h0 => hph.trans ((applyOpt_cases u.phone stored.phone).1 h0),
      fun v hv => hph.trans ((applyOpt_cases u.phone stored.phone).2 v hv),
      fun h0 => hbd.trans ((applyOpt_cases u.birth_date stored.birth_date).1 h0),
      fun v hv => hbd.trans ((applyOpt_cases u.birth_date stored.birth_date).2 v hv),
      (applyReq_eq_some _ _ _ h4).1, (applyReq_eq_some _ _ _ h4).2,
      (applyReq_eq_some _ _ _ h5).1, (applyReq_eq_some _ _ _ h5).2⟩
    rw [hs2]
    exact lookupStore_setStore_self store i merged

/-- C1 witness: the spec's example — PATCH `{"age": 6}` on the stored
Rex leaves every other field unchanged and sets age to 6. -/
theorem C1_partial_update_law_witness :
    rexAfter.name = rexRead.name ∧ rexAfter.age = some 6
    ∧ rexAfter.weight = rexRead.weight
    ∧ lookupStore (update_pet demoPetStore 1 agePatch).2 1 = some rexAfter := by
  obtain ⟨hstore, hnameU, _, _, _, _, hageS, hwU, _⟩ :=
    C1_partial_update_law.1 demoPetStore 1 agePatch rexRead rexAfter (by decide) (by decide)
  exact ⟨hnameU rfl, hageS (some 6) rfl, hwU rfl, hstore⟩

/-- C2: a 200 PATCH on a stored Pet or Owner leaves `created_at` and
`updated_at` exactly as stored — `updated_at` is not refreshed — in
both the returned record and the record stored under the id. -/
theorem C2_timestamps_unchanged_on_update :
    (∀ (store : List (Nat × PetRead)) (i : Nat) (u : PetUpdate) (stored merged : PetRead),
      lookupStore store i = some stored →
      (update_pet store i u).1 = .ok merged →
      merged.created_at = stored.created_at
      ∧ merged.updated_at = stored.updated_at
      ∧ lookupStore (update_pet store i u).2 i = some merged)
    ∧ (∀ (store : List (Nat × OwnerRead)) (i : Nat) (u : OwnerUpdate) (stored merged : OwnerRead),
      lookupStore store i = some stored →
      (update_owner store i u).1 = .ok merged →
      merged.created_at = stored.created_at
      ∧ merged.updated_at = stored.updated_at
      ∧ lookupStore (update_owner store i u).2 i = some merged) := by
  constructor
  · intro store i u stored merged hl hok
    obtain ⟨hm, hs2⟩ := update_pet_ok store i u stored merged hl hok
    obtain ⟨_, _, _, _, _, hc, hu⟩ := mergePet_ok stored merged u hm
    refine ⟨hc, hu, ?_⟩
    rw [hs2]
    exact lookupStore_setStore_self store i merged
  · intro store i u stored merged hl hok
    obtain ⟨hm, hs2⟩ := update_owner_ok store i u stored merged hl hok
    obtain ⟨_, _, _, _, _, _, _, _, hc, hu⟩ := mergeOwner_ok stored merged u hm
    refine ⟨hc, hu, ?_⟩
    rw [hs2]
    exact lookupStore_setStore_self store i merged

/-- C2 witness: PATCHing Rex's age keeps `created_at` and `updated_at`
at their stored values. -/
theorem C2_timestamps_unchanged_on_update_witness :
    rexAfter.created_at = rexRead.created_at
    ∧ rexAfter.updated_at = rexRead.updated_at
    ∧ lookupStore (update_pet demoPetStore 1 agePatch).2 1 = some rexAfter :=
  C2_timestamps_unchanged_on_update.1 demoPetStore 1 agePatch rexRead rexAfter
    (by decide) (by decide)

/-- C9: identifier immutability — a 200 PATCH on a stored Pet or Owner
returns and stores a record whose `id` equals the stored record's `id`
(the Update schemas carry no id field); moreover every mutating Pet and
Owner handler preserves the invariant that the record stored under key
`k` has id `k`, so no operation ever reassigns an id set at
creation. -/
theorem C9_identifier_immutability :
    (∀ (store : List (Nat × PetRead)) (i : Nat) (u : PetUpdate) (stored merged : PetRead),
      lookupStore store i = some stored →
      (update_pet store i u).1 = .ok merged →
      merged.id = stored.id
      ∧ lookupStore (update_pet store i u).2 i = some merged)
    ∧ (∀ (store : List (Nat × OwnerRead)) (i : Nat) (u : OwnerUpdate) (stored merged : OwnerRead),
      lookupStore store i = some stored →
      (update_owner store i u).1 = .ok merged →
      merged.id = stored.id
      ∧ lookupStore (update_owner store i u).2 i = some merged)
    ∧ (∀ (store : List (Nat × PetRead)) (p : PetCreate) (freshId createdAt updatedAt : Nat),
        idsMatchKeys PetRead.id store →
        idsMatchKeys PetRead.id (create_pet store p freshId createdAt updatedAt).2)
    ∧ (∀ (store : List (Nat × PetRead)) (i : Nat) (u : PetUpdate),
        idsMatchKeys PetRead.id store → idsMatchKeys PetRead.id (update_pet store i u).2)
    ∧ (∀ (store : List (Nat × PetRead)) (i : Nat),
        idsMatchKeys PetRead.id store → idsMatchKeys PetRead.id (delete_pet store i).2)
    ∧ (∀ (store : List (Nat × OwnerRead)) (o : OwnerCreate) (freshId createdAt updatedAt : Nat),
        idsMatchKeys OwnerRead.id store →
        idsMatchKeys OwnerRead.id (create_owner store o freshId createdAt updatedAt).2)
    ∧ (∀ (store : List (Nat × OwnerRead)) (i : Nat) (u : OwnerUpdate),
        idsMatchKeys OwnerRead.id store → idsMatchKeys OwnerRead.id (update_owner store i u).2)
    ∧ (∀ (store : List (Nat × OwnerRead)) (i : Nat),
        idsMatchKeys OwnerRead.id store → idsMatchKeys OwnerRead.id (delete_owner store i).2) := by
  refine ⟨?_, ?_, create_pet_preserves_ids, update_pet_preserves_ids, delete_pet_preserves_ids,
    create_owner_preserves_ids, update_owner_preserves_ids, delete_owner_preserves_ids⟩
  · intro store i u stored merged hl hok
    obtain ⟨hm, hs2⟩ := update_pet_ok store i u stored merged hl hok
    obtain ⟨_, _, _, _, hid, _, _⟩ := mergePet_ok stored merged u hm
    refine ⟨hid, ?_⟩
    rw [hs2]
    exact lookupStore_setStore_self store i merged
  · intro store i u stored merged hl hok
    obtain ⟨hm, hs2⟩ := update_owner_ok store i u stored merged hl hok
    obtain ⟨_, _, _, _, _, _, _, hid, _, _⟩ := mergeOwner_ok stored merged u hm
    refine ⟨hid, ?_⟩
    rw [hs2]
    exact lookupStore_setStore_self store i merged

/-- C9 witness: PATCHing Ada's phone keeps her id, and the two-owner
demo store satisfies and keeps the id-consistency invariant across a
delete. -/
theorem C9_identifier_immutability_witness :
    (adaAfterPhone.id = adaRead.id
      ∧ lookupStore (update_owner demoOwnerStore 3 phonePatch).2 3 = some adaAfterPhone)
    ∧ idsMatchKeys OwnerRead.id (delete_owner demoOwnerStore 3).2 :=
  ⟨C9_identifier_immutability.2.1 demoOwnerStore 3 phonePatch adaRead adaAfterPhone
      (by decide) (by decide),
   C9_identifier_immutability.2.2.2.2.2.2.2 demoOwnerStore 3
     (by unfold idsMatchKeys; decide)⟩

/-- C3: `GET /pets?species=s` returns exactly the stored pets with
`species == s` (as an ordered sublist equation); with several supplied
filters membership requires all of them (logical AND); with no filters
the whole store is returned. -/
theorem C3_list_pets_filter_correct :
    (∀ (store : List (Nat × PetRead)) (s : String),
      list_pets store none (some s) none none
        = (storeValues store).filter (fun p => p.species == s))
    ∧ (∀ (store : List (Nat × PetRead)) (name species : Option String)
        (age : Option Int) (weight : Option Rat) (p : PetRead),
        p ∈ list_pets store name species age weight ↔
          p ∈ storeValues store
          ∧ (∀ v, name = some v → p.name = v)
          ∧ (∀ v, species = some v → p.species = v)
          ∧ (∀ v, age = some v → p.age = some v)
          ∧ (∀ v, weight = some v → p.weight = some v))
    ∧ (∀ (store : List (Nat × PetRead)),
        list_pets store none none none none = storeValues store) :=
  ⟨fun _ _ => rfl, mem_list_pets, fun _ => rfl⟩

/-- C3 witness: on the two-pet store the species filter picks exactly
the dog, a name+species query admits Rex, and the empty filter set
returns everything. -/
theorem C3_list_pets_filter_correct_witness :
    list_pets demoPetStore none (some "Dog") none none
      = (storeValues demoPetStore).filter (fun p => p.species == "Dog")
    ∧ rexRead ∈ list_pets demoPetStore (some "Rex") (some "Dog") none none
    ∧ list_pets demoPetStore none none none none = storeValues demoPetStore := by
  refine ⟨C3_list_pets_filter_correct.1 demoPetStore "Dog", ?_,
    C3_list_pets_filter_correct.2.2 demoPetStore⟩
  exact (C3_list_pets_filter_correct.2.1 demoPetStore
    (some "Rex") (some "Dog") none none rexRead).mpr
    ⟨by decide,
     fun v hv => by injection hv with h,
     fun v hv => by injection hv with h,
     by simp, by simp⟩

/-- C4: `GET /owners?city=c` returns exactly the stored owners having
at least one embedded address with that city; an owner with no
matching embedded address is excluded. -/
theorem C4_nested_existential_city_filter :
    ∀ (store : List (Nat × OwnerRead)) (c : String),
      list_owners store none none none none none (some c) none
        = (storeValues store).filter (fun o => o.addresses.any (fun a => a.city == c))
      ∧ ∀ o, o ∈ list_owners store none none none none none (some c) none ↔
          o ∈ storeValues store ∧ ∃ a ∈ o.addresses, a.city = c := by
  intro store c
  refine ⟨rfl, fun o => ?_⟩
  rw [mem_list_owners]
  simp

/-- C4 witness: Ada (one London address) matches `city=London`; Grace
(no addresses) does not. -/
theorem C4_nested_existential_city_filter_witness :
    adaRead ∈ list_owners demoOwnerStore none none none none none (some "London") none
    ∧ graceRead ∉ list_owners demoOwnerStore none none none none none (some "London") none := by
  have h := C4_nested_existential_city_filter demoOwnerStore "London"
  constructor
  · exact (h.2 adaRead).mpr ⟨by decide, adaAddress, by decide, rfl⟩
  · intro hmem
    obtain ⟨-, a, ha, -⟩ := (h.2 graceRead).mp hmem
    simp [graceRead] at ha

/-- C5 counterexample: the filter sets of `list_owners` and
`list_persons` differ — `uni` is a declared query parameter of
`list_persons` but not of `list_owners`, so filtering owners by uni is
not supported. -/
theorem C5_counterexample_no_uni_filter_for_owners :
    list_owners_filters ≠ list_persons_filters
    ∧ "uni" ∈ list_persons_filters
    ∧ "uni" ∉ list_owners_filters := by
  refine ⟨by decide, by decide, by decide⟩

/-- C5 (amended): `GET /owners` accepts the persons' filter set minus
`uni` — first_name, last_name, email, phone, birth_date, city,
country — and each supplied filter restricts the result accordingly
(scalar filters by equality, city/country existentially over embedded
addresses); filtering owners by uni is not supported. -/
theorem C5_owner_filter_set :
    list_owners_filters = list_persons_filters.filter (fun n => n != "uni")
    ∧ (∀ (store : List (Nat × OwnerRead))
        (first_name last_name email phone birth_date city country : Option String)
        (o : OwnerRead),
        o ∈ list_owners store first_name last_name email phone birth_date city country ↔
          o ∈ storeValues store
          ∧ (∀ v, first_name = some v → o.first_name = v)
          ∧ (∀ v, last_name = some v → o.last_name = v)
          ∧ (∀ v, email = some v → o.email = v)
          ∧ (∀ v, phone = some v → o.phone = some v)
          ∧ (∀ v, birth_date = some v → pyStr o.birth_date = v)
          ∧ (∀ v, city = some v → ∃ a ∈ o.addresses, a.city = v)
          ∧ (∀ v, country = some v → ∃ a ∈ o.addresses, a.country = v)) :=
  ⟨by decide, mem_list_owners⟩

/-- C5 witness: a first_name filter on the two-owner store admits
Ada. -/
theorem C5_owner_filter_set_witness :
    list_owners_filters = list_persons_filters.filter (fun n => n != "uni")
    ∧ adaRead ∈ list_owners demoOwnerStore (some "Ada") none none none none none none :=
  ⟨C5_owner_filter_set.1,
   (C5_owner_filter_set.2 demoOwnerStore
      (some "Ada") none none none none none none adaRead).mpr
     ⟨by decide, fun v hv => by injection hv with h,
      by simp, by simp, by simp, by simp, by simp, by simp⟩⟩

/-- C6: DELETE on a missing owner id is a 404 with the store
unchanged; on a present id it responds 204 with no body and a
subsequent GET of that id is a 404. -/
theorem C6_delete_owner_semantics :
    ∀ (store : List (Nat × OwnerRead)) (i : Nat),
      (containsKey store i = false → delete_owner store i = (.notFound, store))
      ∧ (containsKey store i = true →
          (delete_owner store i).1 = .noContent
          ∧ get_owner (delete_owner store i).2 i = none) := by
  intro store i
  constructor
  · intro h
    simp [delete_owner, h]
  · intro h
    refine ⟨by simp [delete_owner, h], ?_⟩
    simp only [delete_owner, h, if_true]
    exact lookupStore_eraseStore_self store i

/-- C6 witness: deleting the unknown id 99 is a 404 leaving the store
as it was; deleting Ada (id 3) responds 204 and the follow-up GET
finds nothing. -/
theorem C6_delete_owner_semantics_witness :
    delete_owner demoOwnerStore 99 = (.notFound, demoOwnerStore)
    ∧ (delete_owner demoOwnerStore 3).1 = .noContent
    ∧ get_owner (delete_owner demoOwnerStore 3).2 3 = none :=
  ⟨(C6_delete_owner_semantics demoOwnerStore 99).1 (by decide),
   ((C6_delete_owner_semantics demoOwnerStore 3).2 (by decide)).1,
   ((C6_delete_owner_semantics demoOwnerStore 3).2 (by decide)).2⟩

/-- C7: POST /addresses with an id already stored is a 400 conflict
leaving the store unchanged; with a fresh id the record is stored
under it, retrievable, and returned with 201. -/
theorem C7_create_address_conflict :
    ∀ (store : List (Nat × AddressRead)) (a : AddressCreate),
      (containsKey store a.id = true → create_address store a = (.conflict, store))
      ∧ (containsKey store a.id = false →
          create_address store a = (.created a, setStore store a.id a)
          ∧ lookupStore (create_address store a).2 a.id = some a) := by
  intro store a
  constructor
  · intro h
    simp [create_address, h]
  · intro h
    refine ⟨by simp [create_address, h], ?_⟩
    simp only [create_address, h, Bool.false_eq_true, if_false]
    exact lookupStore_setStore_self store a.id a

/-- C7 witness: re-posting the stored address id 7 conflicts and
leaves the store as it was; posting the fresh id 8 stores it. -/
theorem C7_create_address_conflict_witness :
    create_address demoAddressStore adaAddress = (.conflict, demoAddressStore)
    ∧ lookupStore (create_address demoAddressStore newAddress).2 newAddress.id
        = some newAddress :=
  ⟨(C7_create_address_conflict demoAddressStore adaAddress).1 (by decide),
   ((C7_create_address_conflict demoAddressStore newAddress).2 (by decide)).2⟩

/-- C8: round-trip — creating a pet and fetching it by the returned id
yields exactly the returned record, whose client-supplied fields equal
the payload's and whose server-generated id and timestamps are the
generated values. -/
theorem C8_create_get_round_trip :
    ∀ (store : List (Nat × PetRead)) (p : PetCreate) (freshId createdAt updatedAt : Nat),
      get_pet (create_pet store p freshId createdAt updatedAt).2
          (create_pet store p freshId createdAt updatedAt).1.id
        = some (create_pet store p freshId createdAt updatedAt).1
      ∧ (create_pet store p freshId createdAt updatedAt).1.name = p.name
      ∧ (create_pet store p freshId createdAt updatedAt).1.species = p.species
      ∧ (create_pet store p freshId createdAt updatedAt).1.age = p.age
      ∧ (create_pet store p freshId createdAt updatedAt).1.weight = p.weight
      ∧ (create_pet store p freshId createdAt updatedAt).1.id = freshId
      ∧ (create_pet store p freshId createdAt updatedAt).1.created_at = createdAt
      ∧ (create_pet store p freshId createdAt updatedAt).1.updated_at = updatedAt := by
  intro store p freshId createdAt updatedAt
  exact ⟨lookupStore_setStore_self store freshId (petReadOfCreate p freshId createdAt updatedAt),
    rfl, rfl, rfl, rfl, rfl, rfl, rfl⟩

/-- C10: a PATCH on a stored owner whose body explicitly sets the
required `email` to null passes Update validation, yet re-constructing
the merged `OwnerRead` fails after the not-found check, so the handler
surfaces an internal fault (not a 400) and the stored record is left
unchanged. -/
theorem C10_null_email_update_is_internal_fault :
    ∀ (store : List (Nat × OwnerRead)) (i : Nat) (u : OwnerUpdate) (stored : OwnerRead),
      lookupStore store i = some stored →
      u.email = some none →
      ownerUpdateValid u = true
      ∧ update_owner store i u = (.internalFault, store) := by
  intro store i u stored hl he
  have hm : mergeOwner stored u = none := by
    unfold mergeOwner
    split
    · rename_i fn ln em pe ad h1 h2 h3 h4 h5
      rw [he] at h3
      simp [applyReq] at h3
    · rfl
  refine ⟨?_, update_owner_present_fail store i u stored hl hm⟩
  unfold ownerUpdateValid
  rw [he]

/-- C10 witness: the explicit-null-email PATCH on stored Ada validates
as an Update yet yields an internal fault with the store unchanged. -/
theorem C10_null_email_update_is_internal_fault_witness :
    ownerUpdateValid emailNullPatch = true
    ∧ update_owner demoOwnerStore 3 emailNullPatch = (.internalFault, demoOwnerStore) :=
  C10_null_email_update_is_internal_fault demoOwnerStore 3 emailNullPatch adaRead
    (by decide) rfl
